import Mathlib

/-!
Verification of `streamlit-activities-menu` (`src/streamlit_activities_menu/__init__.py`).

The Python module is shallowly embedded: YAML values become the inductive `YVal`,
Python exceptions become the inductive `PyErr`, and the ambient effects
(filesystem, HTTP, the YAML parser, the dynamic import machinery, the Streamlit
selectbox widget) are passed explicitly as record-of-functions environments.
Fallible Python code becomes `Except PyErr`-valued Lean functions; the
process-wide `sys.modules` registry is threaded as an association list.
-/

set_option linter.unusedVariables false

namespace SAMenu

/-! ## String and path helpers (embedding `str`/`os.path` operations) -/

/-- `s.startswith(pre)` on Python strings. -/
def strStartsWith (s pre : String) : Bool := pre.toList.isPrefixOf s.toList

/-- `s.endswith(suf)` on Python strings. -/
def strEndsWith (s suf : String) : Bool := suf.toList.isSuffixOf s.toList

/-- Does `pat` occur as a contiguous run inside `l`? -/
def charsContain (pat : List Char) : List Char → Bool
  | [] => pat.isPrefixOf []
  | c :: rest => pat.isPrefixOf (c :: rest) || charsContain pat rest

/-- `k in s` substring test on Python strings. -/
def strContains (s k : String) : Bool := charsContain k.toList s.toList

/-- Character-level model of `str.replace('.py', '')`: scan left to right and
drop every non-overlapping occurrence of `.py`, exactly as CPython does. -/
def stripPyChars : List Char → List Char
  | '.' :: 'p' :: 'y' :: rest => stripPyChars rest
  | c :: rest => c :: stripPyChars rest
  | [] => []

/-- `s.replace('.py', '')` on Python strings. -/
def pyReplacePy (s : String) : String := ⟨stripPyChars s.toList⟩

/-- `os.path.basename`: the component after the last `/` (POSIX). -/
def pyBasename (p : String) : String :=
  ⟨(p.toList.reverse.takeWhile (fun c => c ≠ '/')).reverse⟩

/-- `os.path.join(a, b)` (POSIX): an absolute `b` wins, otherwise the parts are
glued with a single `/`. -/
def osJoin (a b : String) : String :=
  if strStartsWith b "/" then b
  else if a = "" then b
  else if strEndsWith a "/" then a ++ b
  else a ++ "/" ++ b

/-- `os.path.abspath` relative to a current working directory.  (Relative paths
are anchored at `cwd`; `..`-normalisation is not modelled, no claim depends on
it.) -/
def pyAbspath (cwd p : String) : String :=
  if strStartsWith p "/" then p else osJoin cwd p

/-! ## Python exceptions raised by the library -/

/-- The exceptions the embedded code can raise; each constructor is one Python
exception class, carrying the message it is constructed with. -/
inductive PyErr where
  | typeErr (msg : String)           -- TypeError
  | notADirErr (msg : String)        -- NotADirectoryError
  | fileNotFoundErr (msg : String)   -- FileNotFoundError
  | valueErr (msg : String)          -- ValueError
  | keyErr (key : String)            -- KeyError (dict subscript on a missing key)
  | yamlErr (msg : String)           -- yaml.YAMLError
  | genericExc (msg : String)        -- bare Exception(...)
deriving DecidableEq, Repr

/-- The exception class of a raised error, forgetting the message. -/
inductive ErrClass where
  | typeError | notADirectoryError | fileNotFoundError
  | valueError | keyError | yamlError | genericException
deriving DecidableEq, Repr

def PyErr.cls : PyErr → ErrClass
  | .typeErr _ => .typeError
  | .notADirErr _ => .notADirectoryError
  | .fileNotFoundErr _ => .fileNotFoundError
  | .valueErr _ => .valueError
  | .keyErr _ => .keyError
  | .yamlErr _ => .yamlError
  | .genericExc _ => .genericException

/-- The exception class of a call result, `none` when the call returned. -/
def errClassOf {α : Type} : Except PyErr α → Option ErrClass
  | .error e => some e.cls
  | .ok _ => none

/-! ## YAML documents (`yaml.safe_load` results) -/

mutual
/-- A parsed YAML value: scalars, sequences and string-keyed mappings (mappings
produced by `yaml.safe_load` from a manifest are Python dicts with unique
string keys). -/
inductive YVal where
  | vnull
  | vbool (b : Bool)
  | vint (n : Int)
  | vstr (s : String)
  | vlist (xs : YSeq)
  | vdict (m : YMap)
deriving DecidableEq, Repr
/-- A YAML sequence. -/
inductive YSeq where
  | nil
  | cons (v : YVal) (rest : YSeq)
deriving DecidableEq, Repr
/-- A YAML mapping (Python dict: keys unique, insertion-ordered). -/
inductive YMap where
  | nil
  | cons (k : String) (v : YVal) (rest : YMap)
deriving DecidableEq, Repr
end

def YSeq.toList : YSeq → List YVal
  | .nil => []
  | .cons v rest => v :: rest.toList

def YSeq.ofList : List YVal → YSeq
  | [] => .nil
  | v :: rest => .cons v (YSeq.ofList rest)

def YSeq.isNil : YSeq → Bool
  | .nil => true
  | .cons _ _ => false

def YMap.toList : YMap → List (String × YVal)
  | .nil => []
  | .cons k v rest => (k, v) :: rest.toList

/-- Python dict subscript lookup (keys of a constructed dict are unique, so the
first match is the binding). -/
def YMap.lookup : YMap → String → Option YVal
  | .nil, _ => none
  | .cons k v rest, key => if k = key then some v else rest.lookup key

/-- `key in d` on a Python dict. -/
def YMap.hasKey (m : YMap) (key : String) : Bool := (m.lookup key).isSome

def YMap.isNil : YMap → Bool
  | .nil => true
  | .cons _ _ _ => false

/-- Python truthiness of a YAML value (`if available_services:`). -/
def YVal.truthy : YVal → Bool
  | .vnull => false
  | .vbool b => b
  | .vint n => n != 0
  | .vstr s => !(s == "")
  | .vlist xs => !xs.isNil
  | .vdict m => !m.isNil

/-- `d[k]` subscripting with a string key: a `KeyError` on a dict missing the
key, a `TypeError` on values that do not support string subscripts. -/
def YVal.getItem : YVal → String → Except PyErr YVal
  | .vdict m, key =>
    match m.lookup key with
    | some v => .ok v
    | none => .error (.keyErr key)
  | .vstr _, _ => .error (.typeErr "string indices must be integers")
  | .vlist _, _ => .error (.typeErr "list indices must be integers")
  | _, _ => .error (.typeErr "object is not subscriptable")

/-- `for x in v`: iterating a sequence yields its elements, a string its
characters, a dict its keys; scalars are not iterable. -/
def pyIter : YVal → Except PyErr (List YVal)
  | .vlist xs => .ok xs.toList
  | .vstr s => .ok (s.toList.map fun c => .vstr ⟨[c]⟩)
  | .vdict m => .ok (m.toList.map fun kv => .vstr kv.1)
  | _ => .error (.typeErr "object is not iterable")

/-- `k in v` for a string `k`: key test on dicts, substring test on strings,
membership on sequences; scalars are not containers. -/
def pyContainsKey (v : YVal) (k : String) : Except PyErr Bool :=
  match v with
  | .vdict m => .ok (m.hasKey k)
  | .vstr s => .ok (strContains s k)
  | .vlist xs => .ok (xs.toList.contains (.vstr k))
  | _ => .error (.typeErr "argument is not iterable")

/-! ## Insertion-ordered dicts as association lists

CPython dict assignment `d[k] = v` updates the value in place when `k` is
present (keeping the key's original position) and appends otherwise; these
are the semantics of `dictInsert`. -/

def dictInsert {α β : Type} [DecidableEq α] (k : α) (v : β) :
    List (α × β) → List (α × β)
  | [] => [(k, v)]
  | (k', v') :: rest => if k' = k then (k, v) :: rest else (k', v') :: dictInsert k v rest

def dictLookup {α β : Type} [DecidableEq α] (k : α) : List (α × β) → Option β
  | [] => none
  | (k', v') :: rest => if k' = k then some v' else dictLookup k rest

def dictKeys {α β : Type} (d : List (α × β)) : List α := d.map Prod.fst

/-- Left fold of `dictInsert` over a pair list: the dict built by inserting the
pairs left to right (a Python dict comprehension). -/
def dfold {α β : Type} [DecidableEq α] (acc : List (α × β)) (ps : List (α × β)) :
    List (α × β) :=
  ps.foldl (fun d p => dictInsert p.1 p.2 d) acc

/-- First-occurrence de-duplication (the key order of a dict built by repeated
insertion); `seen` accumulates the keys already emitted. -/
def dedupAux {α : Type} [DecidableEq α] (seen : List α) : List α → List α
  | [] => []
  | x :: xs => if x ∈ seen then dedupAux seen xs else x :: dedupAux (x :: seen) xs

def dedupKeepFirst {α : Type} [DecidableEq α] (l : List α) : List α := dedupAux [] l

/-- The value of the last pair with key `k` (the binding a dict built by
repeated insertion holds for `k`). -/
def lastAssoc {α β : Type} [DecidableEq α] (ps : List (α × β)) (k : α) : Option β :=
  ps.foldl (fun acc p => if p.1 = k then some p.2 else acc) none

/-! ## Effect environments -/

/-- The filesystem as seen through `os.path.isfile` / `os.path.isdir` /
`open(...).read()`, plus the working directory `os.path.abspath` resolves
against. -/
structure FileSys where
  isFile : String → Bool
  isDir : String → Bool
  content : String → String
  cwd : String

/-- The outcome of `requests.get(url)`: either the call raised
(`requests.RequestException`) or a response with a status code and a body. -/
inductive HttpResult where
  | netErr (msg : String)
  | response (status : Nat) (body : String)

/-- The ambient world of `load_yaml` and `get_available_activities`: the
filesystem, the network, and `yaml.safe_load` (abstracted as a function from
text to a value or a parser diagnostic `str(e)`). -/
structure World where
  fs : FileSys
  http : String → HttpResult
  parseYaml : String → Except String YVal

/-- The message of the `requests.HTTPError` that `raise_for_status` raises for
a 4xx/5xx status (the exact text is requests-internal; only its identity as a
caught `RequestException` matters to the code). -/
def httpStatusMsg (status : Nat) (url : String) : String :=
  toString status ++ " Error for url: " ++ url

/-! ## `load_yaml` -/

/-- Embedding of `load_yaml(filepath)`.  An HTTP(S) location is fetched with a
GET; `raise_for_status` and `yaml.safe_load` failures are caught together by
`except (requests.RequestException, yaml.YAMLError)` and re-raised as a bare
`Exception`.  A local path missing from the filesystem raises
`FileNotFoundError`; a local parse failure is re-raised as `yaml.YAMLError`
wrapping the original diagnostic. -/
def load_yaml (filepath : String) (w : World) : Except PyErr YVal :=
  if strStartsWith filepath "http://" || strStartsWith filepath "https://" then
    match w.http filepath with
    | .netErr msg =>
      .error (.genericExc ("Error loading YAML from `" ++ filepath ++ "`. \n " ++ msg))
    | .response status body =>
      if 400 ≤ status ∧ status < 600 then
        .error (.genericExc ("Error loading YAML from `" ++ filepath ++ "`. \n " ++
          httpStatusMsg status filepath))
      else
        match w.parseYaml body with
        | .error msg =>
          .error (.genericExc ("Error loading YAML from `" ++ filepath ++ "`. \n " ++ msg))
        | .ok v => .ok v
  else
    if !(w.fs.isFile filepath) then
      .error (.fileNotFoundErr ("No such file or directory: '" ++ filepath ++ "'"))
    else
      match w.parseYaml (w.fs.content filepath) with
      | .error msg =>
        .error (.yamlErr ("File `" ++ filepath ++ "` loading error. \n " ++ msg))
      | .ok v => .ok v

/-! ## `get_available_activities` -/

/-- The dict comprehension `{service['name']: service for service in
available_services}`: pairs are inserted left to right; the first failing
`service['name']` subscript aborts the comprehension with its exception. -/
def buildServicesAux (acc : List (YVal × YVal)) :
    List YVal → Except PyErr (List (YVal × YVal))
  | [] => .ok acc
  | s :: rest =>
    match s.getItem "name" with
    | .error e => .error e
    | .ok n => buildServicesAux (dictInsert n s acc) rest

/-- Embedding of `get_available_activities(activities_filepath)`: check the
path is a file, load the YAML from its absolute path, and if the document is
truthy build the ordered name → record dict (`OrderedDict` of a dict
comprehension preserves the comprehension's insertion order); a falsy document
yields `None`. -/
def get_available_activities (activities_filepath : String) (w : World) :
    Except PyErr (Option (List (YVal × YVal))) :=
  if !(w.fs.isFile activities_filepath) then
    .error (.fileNotFoundErr ("No such file or directory: '" ++ activities_filepath ++ "'"))
  else
    match load_yaml (pyAbspath w.fs.cwd activities_filepath) w with
    | .error e => .error e
    | .ok available_services =>
      if available_services.truthy then
        match pyIter available_services with
        | .error e => .error e
        | .ok services =>
          match buildServicesAux [] services with
          | .error e => .error e
          | .ok d => .ok (some d)
      else
        .ok none

/-! ## `_script_as_module` -/

/-- A Python argument as the `isinstance(-, str)` checks see it: a string, or
a non-string carrying its type name (used in the `TypeError` message). -/
inductive PyVal where
  | str (s : String)
  | nonStr (typeName : String)
deriving DecidableEq, Repr

/-- The outcome of running `module_from_spec` + `spec.loader.exec_module`
(both sit inside the same `try`): success, or some exception raised while
executing the script's top-level code. -/
inductive ExecOutcome where
  | success
  | raises (msg : String)
deriving DecidableEq, Repr

/-- The dynamic-import machinery, abstracted: whether
`spec_from_file_location` returns a (truthy) spec, what executing the module
does, and an opaque token standing for the module object that would be
registered. -/
structure LoaderEnv where
  specOk : Bool
  exec : ExecOutcome
  moduleTok : Nat

/-- Observable effects, recorded in order: spec construction, execution of a
module's top-level code, rendering of the selectbox widget. -/
inductive Event where
  | specConstructed (path : String)
  | moduleExec (path : String)
  | widgetRendered (key : String)
deriving DecidableEq, Repr

/-- Result of a `_script_as_module` call: the returned value or the raised
exception, the `sys.modules` registry after the call, and the effect trace. -/
structure LoadResult where
  result : Except PyErr Bool
  registry : List (String × Nat)
  events : List Event

/-- Embedding of `_script_as_module(module_filepath, activities_dirpath)`.
The argument order, the order of the four precondition checks, the derived
module name `os.path.basename(...).replace('.py', '')`, and the placement of
`sys.modules[module_name] = module` after a successful `exec_module` all
follow the source.  A 2-tuple spec object is always truthy, so `if spec:`
is `specOk`. -/
def script_as_module (module_filepath activities_dirpath : PyVal)
    (fs : FileSys) (env : LoaderEnv) (registry : List (String × Nat)) : LoadResult :=
  match activities_dirpath with
  | .nonStr t =>
    ⟨.error (.typeErr ("`activities_dirpath` must be a string, not " ++ t)), registry, []⟩
  | .str activities_dirpath =>
    match module_filepath with
    | .nonStr t =>
      ⟨.error (.typeErr ("`module_filepath` must be a string, not " ++ t)), registry, []⟩
    | .str module_filepath =>
      if !(fs.isDir activities_dirpath) then
        ⟨.error (.notADirErr ("No such directory: '" ++ activities_dirpath ++ "'")),
          registry, []⟩
      else
        let abs_module_filepath := osJoin activities_dirpath module_filepath
        if !(fs.isFile abs_module_filepath) then
          ⟨.error (.fileNotFoundErr ("No such file: '" ++ abs_module_filepath ++ "'")),
            registry, []⟩
        else
          let module_name := pyReplacePy (pyBasename abs_module_filepath)
          if env.specOk then
            match env.exec with
            | .success =>
              ⟨.ok true, dictInsert module_name env.moduleTok registry,
                [.specConstructed abs_module_filepath, .moduleExec abs_module_filepath]⟩
            | .raises _ =>
              ⟨.ok false, registry,
                [.specConstructed abs_module_filepath, .moduleExec abs_module_filepath]⟩
          else
            ⟨.ok false, registry, []⟩

/-! ## `build_activities_menu` -/

/-- The Streamlit `sidebar.selectbox` widget, abstracted: from the options
list and the disabled flag it reports the selected option or `None`. -/
structure MenuWidget where
  choose : List (YVal × YVal) → Bool → Option (YVal × YVal)

/-- Result of a `build_activities_menu` call: the returned
`(selected_name, activities_dict)` pair or the raised exception, the registry
after the call, and the effect trace. -/
structure MenuResult where
  result : Except PyErr (Option YVal × List (YVal × YVal))
  registry : List (String × Nat)
  events : List Event

/-- The validation loop: `for task_dict in activities_dict.values(): if 'name'
not in task_dict or 'url' not in task_dict: raise ValueError(...)`, with
Python's left-to-right short-circuit of `or`. -/
def validateActivities : List (YVal × YVal) → Except PyErr Unit
  | [] => .ok ()
  | (_, task_dict) :: rest =>
    match pyContainsKey task_dict "name" with
    | .error e => .error e
    | .ok false => .error (.valueErr "Each activity dict must have both 'name' and 'url'")
    | .ok true =>
      match pyContainsKey task_dict "url" with
      | .error e => .error e
      | .ok false => .error (.valueErr "Each activity dict must have both 'name' and 'url'")
      | .ok true => validateActivities rest

/-- The comprehension `[(d['name'], d['url']) for d in
activities_dict.values()]`, evaluated left to right. -/
def collectOptions : List (YVal × YVal) → Except PyErr (List (YVal × YVal))
  | [] => .ok []
  | (_, d) :: rest =>
    match d.getItem "name" with
    | .error e => .error e
    | .ok n =>
      match d.getItem "url" with
      | .error e => .error e
      | .ok u =>
        match collectOptions rest with
        | .error e => .error e
        | .ok tail => .ok ((n, u) :: tail)

/-- How a catalog value flows into `_script_as_module`'s `isinstance` checks:
a YAML string is a Python `str`, anything else is a non-string of its type. -/
def YVal.asArg : YVal → PyVal
  | .vstr s => .str s
  | .vint _ => .nonStr "int"
  | .vbool _ => .nonStr "bool"
  | .vnull => .nonStr "NoneType"
  | .vlist _ => .nonStr "list"
  | .vdict _ => .nonStr "dict"

/-- Embedding of `build_activities_menu(activities_dict, label, key,
activities_dirpath, disabled)`: validate every record, build the options,
render the widget, and on a selection call `_script_as_module` (its boolean
result is discarded, its exceptions propagate).  The returned tuple is
`(selected_activity if selection_tuple else None), activities_dict`; a
selection is a non-empty tuple, hence truthy. -/
def build_activities_menu (activities_dict : List (YVal × YVal))
    (label widgetKey : String) (activities_dirpath : PyVal) (disabled : Bool)
    (widget : MenuWidget) (fs : FileSys) (env : LoaderEnv)
    (registry : List (String × Nat)) : MenuResult :=
  match validateActivities activities_dict with
  | .error e => ⟨.error e, registry, []⟩
  | .ok _ =>
    match collectOptions activities_dict with
    | .error e => ⟨.error e, registry, []⟩
    | .ok activity_names =>
      match widget.choose activity_names disabled with
      | some (selected_activity, module_filepath) =>
        let load := script_as_module module_filepath.asArg activities_dirpath fs env registry
        match load.result with
        | .error e => ⟨.error e, load.registry, .widgetRendered widgetKey :: load.events⟩
        | .ok _ =>
          ⟨.ok (some selected_activity, activities_dict), load.registry,
            .widgetRendered widgetKey :: load.events⟩
      | none => ⟨.ok (none, activities_dict), registry, [.widgetRendered widgetKey]⟩

/-! ## Lemmas about ordered-dict insertion -/

theorem dictKeys_dictInsert {α β : Type} [DecidableEq α] (k : α) (v : β)
    (d : List (α × β)) :
    dictKeys (dictInsert k v d) =
      if k ∈ dictKeys d then dictKeys d else dictKeys d ++ [k] := by
  induction d with
  | nil => simp [dictInsert, dictKeys]
  | cons p rest ih =>
    obtain ⟨k', v'⟩ := p
    by_cases hk : k' = k
    · subst hk
      simp [dictInsert, dictKeys]
    · simp only [dictInsert, if_neg hk, dictKeys, List.map_cons, List.mem_cons]
      have hne : ¬ k = k' := fun h => hk h.symm
      simp only [dictKeys] at ih
      rw [ih]
      by_cases hmem : k ∈ rest.map Prod.fst <;> simp [hmem, hne]

theorem dictLookup_dictInsert_self {α β : Type} [DecidableEq α] (k : α) (v : β)
    (d : List (α × β)) :
    dictLookup k (dictInsert k v d) = some v := by
  induction d with
  | nil => simp [dictInsert, dictLookup]
  | cons p rest ih =>
    obtain ⟨k', v'⟩ := p
    by_cases hk : k' = k
    · subst hk
      simp [dictInsert, dictLookup]
    · simp [dictInsert, dictLookup, hk, ih]

theorem dictLookup_dictInsert_ne {α β : Type} [DecidableEq α] (k k' : α) (v : β)
    (d : List (α × β)) (h : k' ≠ k) :
    dictLookup k' (dictInsert k v d) = dictLookup k' d := by
  induction d with
  | nil => simp [dictInsert, dictLookup, Ne.symm h]
  | cons p rest ih =>
    obtain ⟨k₀, v₀⟩ := p
    by_cases hk : k₀ = k
    · subst hk
      simp [dictInsert, dictLookup, Ne.symm h]
    · simp only [dictInsert, if_neg hk]
      by_cases hk' : k₀ = k'
      · subst hk'
        simp [dictLookup]
      · simp [dictLookup, hk', ih]

theorem dedupAux_cons {α : Type} [DecidableEq α] (seen : List α) (y : α) (l : List α) :
    dedupAux seen (y :: l) =
      if y ∈ seen then dedupAux seen l else y :: dedupAux (y :: seen) l := rfl

theorem mem_dedupAux {α : Type} [DecidableEq α] (x : α) :
    ∀ (l seen : List α), x ∈ dedupAux seen l ↔ x ∈ l ∧ x ∉ seen := by
  intro l
  induction l with
  | nil => intro seen; simp [dedupAux]
  | cons y rest ih =>
    intro seen
    rw [dedupAux_cons]
    by_cases hy : y ∈ seen
    · rw [if_pos hy, ih]
      constructor
      · rintro ⟨h1, h2⟩
        exact ⟨List.mem_cons_of_mem _ h1, h2⟩
      · rintro ⟨h1, h2⟩
        rcases List.mem_cons.mp h1 with rfl | h1
        · exact absurd hy h2
        · exact ⟨h1, h2⟩
    · rw [if_neg hy, List.mem_cons, ih]
      constructor
      · rintro (rfl | ⟨h1, h2⟩)
        · exact ⟨List.mem_cons_self _ _, hy⟩
        · exact ⟨List.mem_cons_of_mem _ h1,
            fun hs => h2 (List.mem_cons_of_mem _ hs)⟩
      · rintro ⟨h1, h2⟩
        by_cases hxy : x = y
        · exact Or.inl hxy
        · rcases List.mem_cons.mp h1 with rfl | h1
          · exact absurd rfl hxy
          · refine Or.inr ⟨h1, fun hs => ?_⟩
            rcases List.mem_cons.mp hs with rfl | hs
            · exact hxy rfl
            · exact h2 hs

theorem dedupAux_append {α : Type} [DecidableEq α] (x : α) :
    ∀ (l seen : List α),
      dedupAux seen (l ++ [x]) =
        dedupAux seen l ++ (if x ∈ seen ∨ x ∈ l then [] else [x]) := by
  intro l
  induction l with
  | nil =>
    intro seen
    by_cases hx : x ∈ seen
    · rw [List.nil_append, dedupAux_cons, if_pos hx, if_pos (Or.inl hx)]
      rfl
    · rw [List.nil_append, dedupAux_cons, if_neg hx,
        if_neg (by rintro (h | h); exact hx h; cases h)]
      rfl
  | cons y rest ih =>
    intro seen
    rw [List.cons_append, dedupAux_cons, dedupAux_cons]
    by_cases hy : y ∈ seen
    · rw [if_pos hy, if_pos hy, ih seen]
      by_cases hx : x ∈ seen ∨ x ∈ rest
      · rw [if_pos hx, if_pos]
        rcases hx with hx | hx
        · exact Or.inl hx
        · exact Or.inr (List.mem_cons_of_mem _ hx)
      · rw [if_neg hx, if_neg]
        rintro (hs | hm)
        · exact hx (Or.inl hs)
        · rcases List.mem_cons.mp hm with rfl | hm
          · exact hx (Or.inl hy)
          · exact hx (Or.inr hm)
    · rw [if_neg hy, if_neg hy, ih (y :: seen), List.cons_append]
      by_cases hx : x ∈ y :: seen ∨ x ∈ rest
      · rw [if_pos hx, if_pos]
        rcases hx with hs | hm
        · rcases List.mem_cons.mp hs with rfl | hs
          · exact Or.inr (List.mem_cons_self _ _)
          · exact Or.inl hs
        · exact Or.inr (List.mem_cons_of_mem _ hm)
      · rw [if_neg hx, if_neg]
        rintro (hs | hm)
        · exact hx (Or.inl (List.mem_cons_of_mem _ hs))
        · rcases List.mem_cons.mp hm with rfl | hm
          · exact hx (Or.inl (List.mem_cons_self _ _))
          · exact hx (Or.inr hm)

theorem dedupAux_nodup {α : Type} [DecidableEq α] :
    ∀ (l seen : List α), (dedupAux seen l).Nodup := by
  intro l
  induction l with
  | nil => intro seen; simp [dedupAux]
  | cons y rest ih =>
    intro seen
    rw [dedupAux_cons]
    by_cases hy : y ∈ seen
    · rw [if_pos hy]; exact ih seen
    · rw [if_neg hy, List.nodup_cons]
      refine ⟨fun hmem => ?_, ih (y :: seen)⟩
      exact ((mem_dedupAux y rest (y :: seen)).mp hmem).2 (List.mem_cons_self _ _)

theorem dfold_append {α β : Type} [DecidableEq α] (acc : List (α × β))
    (ps : List (α × β)) (p : α × β) :
    dfold acc (ps ++ [p]) = dictInsert p.1 p.2 (dfold acc ps) := by
  simp [dfold, List.foldl_append]

theorem lastAssoc_append {α β : Type} [DecidableEq α] (ps : List (α × β))
    (p : α × β) (k : α) :
    lastAssoc (ps ++ [p]) k = if p.1 = k then some p.2 else lastAssoc ps k := by
  simp [lastAssoc, List.foldl_append]

theorem dfold_keys {α β : Type} [DecidableEq α] (ps : List (α × β)) :
    dictKeys (dfold [] ps) = dedupKeepFirst (ps.map Prod.fst) := by
  induction ps using List.reverseRecOn with
  | nil => simp [dfold, dictKeys, dedupKeepFirst, dedupAux]
  | append_singleton ps p ih =>
    rw [dfold_append, dictKeys_dictInsert, ih, List.map_append, List.map_singleton]
    simp only [dedupKeepFirst]
    rw [dedupAux_append]
    have hmem : p.1 ∈ dedupAux [] (ps.map Prod.fst) ↔ p.1 ∈ ps.map Prod.fst := by
      simpa using mem_dedupAux p.1 (ps.map Prod.fst) []
    by_cases hp : p.1 ∈ ps.map Prod.fst
    · rw [if_pos (hmem.mpr hp), if_pos (by simp [hp])]
      simp
    · rw [if_neg (fun h => hp (hmem.mp h)), if_neg (by simp [hp])]

theorem dfold_lookup {α β : Type} [DecidableEq α] (ps : List (α × β)) (k : α) :
    dictLookup k (dfold [] ps) = lastAssoc ps k := by
  induction ps using List.reverseRecOn with
  | nil => simp [dfold, dictLookup, lastAssoc]
  | append_singleton ps p ih =>
    rw [dfold_append, lastAssoc_append]
    by_cases hp : p.1 = k
    · subst hp
      simp [dictLookup_dictInsert_self]
    · rw [if_neg hp, dictLookup_dictInsert_ne _ _ _ _ (fun h => hp h.symm), ih]

theorem dfold_keys_nodup {α β : Type} [DecidableEq α] (ps : List (α × β)) :
    (dictKeys (dfold [] ps)).Nodup := by
  rw [dfold_keys, dedupKeepFirst]
  exact dedupAux_nodup _ _

/-! ## Lemmas about the YAML embedding -/

theorem YSeq.toList_ofList : ∀ l : List YVal, (YSeq.ofList l).toList = l
  | [] => rfl
  | v :: rest => by simp [YSeq.ofList, YSeq.toList, YSeq.toList_ofList rest]

theorem buildServicesAux_ok (f : YVal → YVal) :
    ∀ (services : List YVal) (acc : List (YVal × YVal)),
      (∀ s ∈ services, s.getItem "name" = .ok (f s)) →
      buildServicesAux acc services = .ok (dfold acc (services.map fun s => (f s, s))) := by
  intro services
  induction services with
  | nil => intro acc _; simp [buildServicesAux, dfold]
  | cons s rest ih =>
    intro acc h
    have hs : s.getItem "name" = .ok (f s) := h s (List.mem_cons_self _ _)
    have hrest : ∀ x ∈ rest, x.getItem "name" = .ok (f x) :=
      fun x hx => h x (List.mem_cons_of_mem _ hx)
    simp only [buildServicesAux, hs, List.map_cons]
    rw [ih (dictInsert (f s) s acc) hrest]
    rfl

theorem buildServicesAux_isOk :
    ∀ (services : List YVal) (acc : List (YVal × YVal)),
      (∀ s ∈ services, ∃ n, s.getItem "name" = .ok n) →
      ∃ d, buildServicesAux acc services = .ok d := by
  intro services
  induction services with
  | nil => intro acc _; exact ⟨acc, rfl⟩
  | cons s rest ih =>
    intro acc h
    obtain ⟨n, hn⟩ := h s (List.mem_cons_self _ _)
    obtain ⟨d, hd⟩ := ih (dictInsert n s acc) (fun x hx => h x (List.mem_cons_of_mem _ hx))
    exact ⟨d, by simp [buildServicesAux, hn, hd]⟩

theorem validateActivities_violation :
    ∀ (dict : List (YVal × YVal)),
      (∀ p ∈ dict, ∃ m, p.2 = YVal.vdict m) →
      (∃ p, p ∈ dict ∧ ∃ m, p.2 = YVal.vdict m ∧
        (m.hasKey "name" = false ∨ m.hasKey "url" = false)) →
      validateActivities dict =
        .error (.valueErr "Each activity dict must have both 'name' and 'url'") := by
  intro dict
  induction dict with
  | nil =>
    rintro _ ⟨p, hp, _⟩
    exact absurd hp (List.not_mem_nil p)
  | cons q rest ih =>
    rintro hdicts ⟨p, hp, m, hm, hbad⟩
    obtain ⟨m₀, hm₀⟩ := hdicts q (List.mem_cons_self _ _)
    obtain ⟨k₀, v₀⟩ := q
    simp only at hm₀
    subst hm₀
    by_cases hname : m₀.hasKey "name"
    · by_cases hurl : m₀.hasKey "url"
      · have hpq : p ∈ rest := by
          rcases List.mem_cons.mp hp with rfl | hmem
          · simp only at hm
            cases hm
            rcases hbad with hb | hb
            · rw [hname] at hb; cases hb
            · rw [hurl] at hb; cases hb
          · exact hmem
        simp only [validateActivities, pyContainsKey, hname, hurl]
        exact ih (fun x hx => hdicts x (List.mem_cons_of_mem _ hx)) ⟨p, hpq, m, hm, hbad⟩
      · simp [validateActivities, pyContainsKey, hname, Bool.eq_false_iff.mpr hurl]
    · simp [validateActivities, pyContainsKey, Bool.eq_false_iff.mpr hname]

/-! ## Concrete records, worlds and environments used by witnesses -/

/-- Manifest record `{name: "A", url: "a.py"}`. -/
def recA : YVal := .vdict (.cons "name" (.vstr "A") (.cons "url" (.vstr "a.py") .nil))

/-- Manifest record `{name: "B", url: "b.py"}`. -/
def recB : YVal := .vdict (.cons "name" (.vstr "B") (.cons "url" (.vstr "b.py") .nil))

/-- Manifest record `{name: "A"}` (no `url`). -/
def recNoUrl : YVal := .vdict (.cons "name" (.vstr "A") .nil)

/-- The `name` value of a record, with `vnull` as an irrelevant default; used
only to instantiate the name-extractor argument of theorems in witnesses. -/
def nameOrNull (s : YVal) : YVal :=
  match s.getItem "name" with
  | .ok n => n
  | .error _ => .vnull

/-- A world whose manifest at `/m.yaml` parses to `[recA, recB]`. -/
def w1 : World :=
  { fs := { isFile := fun p => p == "/m.yaml", isDir := fun _ => false,
            content := fun _ => "", cwd := "/" }
    http := fun _ => .netErr "no network"
    parseYaml := fun _ => .ok (.vlist (YSeq.ofList [recA, recB])) }

/-- A world whose manifest at `/empty.yaml` parses to YAML `null`. -/
def w8 : World :=
  { fs := { isFile := fun p => p == "/empty.yaml", isDir := fun _ => false,
            content := fun _ => "", cwd := "/" }
    http := fun _ => .netErr "no network"
    parseYaml := fun _ => .ok .vnull }

/-- A world whose manifest at `/act.yaml` parses to one record `{url: "a.py"}`
with no `name` key. -/
def w9 : World :=
  { fs := { isFile := fun p => p == "/act.yaml", isDir := fun _ => false,
            content := fun _ => "", cwd := "/" }
    http := fun _ => .netErr "no network"
    parseYaml := fun _ => .ok (.vlist (.cons (.vdict (.cons "url" (.vstr "a.py") .nil)) .nil)) }

/-- A world whose manifest at `/one.yaml` parses to `[recNoUrl]`. -/
def wNoUrl : World :=
  { fs := { isFile := fun p => p == "/one.yaml", isDir := fun _ => false,
            content := fun _ => "", cwd := "/" }
    http := fun _ => .netErr "no network"
    parseYaml := fun _ => .ok (.vlist (YSeq.ofList [recNoUrl])) }

/-- A world where every GET raises a network error. -/
def wNet : World :=
  { fs := { isFile := fun _ => false, isDir := fun _ => false,
            content := fun _ => "", cwd := "/" }
    http := fun _ => .netErr "boom"
    parseYaml := fun _ => .ok .vnull }

/-- A world where GET succeeds with status 200 but the body fails to parse. -/
def wParse : World :=
  { fs := { isFile := fun _ => false, isDir := fun _ => false,
            content := fun _ => "", cwd := "/" }
    http := fun _ => .response 200 "bad: ["
    parseYaml := fun _ => .error "parse boom" }

/-- A world with a local file at `/m.yaml` whose contents fail to parse. -/
def wLocalBad : World :=
  { fs := { isFile := fun p => p == "/m.yaml", isDir := fun _ => false,
            content := fun _ => "bad: [", cwd := "/" }
    http := fun _ => .netErr "no network"
    parseYaml := fun _ => .error "parse boom" }

/-- A filesystem with directories `/root` and `/root/activities` and script
files `/root/a.py.py`, `/root/a.py` and `/root/activities/foo.py`. -/
def fs3 : FileSys :=
  { isFile := fun p => p == "/root/a.py.py" || p == "/root/a.py" ||
      p == "/root/activities/foo.py"
    isDir := fun p => p == "/root" || p == "/root/activities"
    content := fun _ => ""
    cwd := "/" }

/-- A filesystem with only the directory `/d` and no files. -/
def fsPre : FileSys :=
  { isFile := fun _ => false
    isDir := fun p => p == "/d"
    content := fun _ => ""
    cwd := "/" }

/-- A loader environment where the spec builds and execution succeeds. -/
def envOk : LoaderEnv := ⟨true, .success, 7⟩

/-- A loader environment where executing the script's top-level code raises. -/
def envRaise : LoaderEnv := ⟨true, .raises "boom", 7⟩

/-- A loader environment where no spec could be constructed. -/
def envNoSpec : LoaderEnv := ⟨false, .success, 7⟩

/-- A selectbox that reports no active selection. -/
def widgetNone : MenuWidget := ⟨fun _ _ => none⟩

/-- A selectbox that reports the first option as selected. -/
def widgetFirst : MenuWidget := ⟨fun opts _ => opts.head?⟩

/-- Modelled from the claim's words (for comparison with the source, which
uses `replace('.py', '')`): the module identifier as C3 describes it — the
base name with only a trailing `.py` extension stripped. -/
def specModuleName (base : String) : String :=
  if strEndsWith base ".py" then base.dropRight 3 else base

/-! ## Claim C1 -/

/-- C1: for every manifest document parsing to a non-empty sequence of records
each carrying a `name` key, `get_available_activities` returns a catalog keyed
by name with exactly one (duplicate-free) entry per distinct name, the keys in
manifest (first-occurrence) order, and each name bound to the record of its
last occurrence in the manifest. -/
theorem C1_catalog_shape (w : World) (path : String) (records : List YVal)
    (f : YVal → YVal)
    (hfile : w.fs.isFile path = true)
    (hload : load_yaml (pyAbspath w.fs.cwd path) w = .ok (.vlist (YSeq.ofList records)))
    (hne : records ≠ [])
    (hnames : ∀ s ∈ records, s.getItem "name" = .ok (f s)) :
    ∃ catalog : List (YVal × YVal),
      get_available_activities path w = .ok (some catalog) ∧
      dictKeys catalog = dedupKeepFirst (records.map f) ∧
      (dictKeys catalog).Nodup ∧
      ∀ k, dictLookup k catalog = lastAssoc (records.map fun s => (f s, s)) k := by
  obtain ⟨r, rs, rfl⟩ := List.exists_cons_of_ne_nil hne
  have hb := buildServicesAux_ok f (r :: rs) [] hnames
  refine ⟨dfold [] ((r :: rs).map fun s => (f s, s)), ?_, ?_, ?_, ?_⟩
  · simp [get_available_activities, hfile, hload, YVal.truthy, YSeq.ofList,
      YSeq.isNil, pyIter, YSeq.toList, YSeq.toList_ofList, hb]
  · rw [dfold_keys, List.map_map]
    rfl
  · exact dfold_keys_nodup _
  · intro k
    exact dfold_lookup _ k

/-- Witness for C1 at the two-record manifest `[recA, recB]`. -/
theorem C1_catalog_shape_witness :
    ∃ catalog, get_available_activities "/m.yaml" w1 = .ok (some catalog) ∧
      dictKeys catalog = dedupKeepFirst ([recA, recB].map nameOrNull) ∧
      (dictKeys catalog).Nodup ∧
      ∀ k, dictLookup k catalog =
        lastAssoc ([recA, recB].map fun s => (nameOrNull s, s)) k :=
  C1_catalog_shape w1 "/m.yaml" [recA, recB] nameOrNull rfl rfl
    (by simp)
    (by
      intro s hs
      rcases List.mem_cons.mp hs with rfl | hs
      · rfl
      · rcases List.mem_cons.mp hs with rfl | hs
        · rfl
        · exact absurd hs (List.not_mem_nil s))

/-! ## Claim C2 -/

/-- C2: once `_script_as_module`'s preconditions hold, an exception raised
while executing the loaded script's top-level code is caught and the call
returns `False` (it never raises); and when no spec can be constructed the
call also returns `False` without raising. -/
theorem C2_load_failure_contained (fp dir : String) (fs : FileSys)
    (env : LoaderEnv) (reg : List (String × Nat))
    (hdir : fs.isDir dir = true)
    (hfile : fs.isFile (osJoin dir fp) = true) :
    (∀ msg, env.exec = .raises msg →
      (script_as_module (.str fp) (.str dir) fs env reg).result = .ok false) ∧
    (env.specOk = false →
      (script_as_module (.str fp) (.str dir) fs env reg).result = .ok false) := by
  constructor
  · intro msg hmsg
    cases hs : env.specOk <;>
      simp [script_as_module, hdir, hfile, hmsg, hs]
  · intro hs
    simp [script_as_module, hdir, hfile, hs]

/-- Witness for C2: a raising script and a failed spec both yield `False`. -/
theorem C2_load_failure_contained_witness :
    (script_as_module (.str "a.py") (.str "/root") fs3 envRaise []).result = .ok false ∧
    (script_as_module (.str "a.py") (.str "/root") fs3 envNoSpec []).result = .ok false :=
  ⟨(C2_load_failure_contained "a.py" "/root" fs3 envRaise [] rfl rfl).1 "boom" rfl,
   (C2_load_failure_contained "a.py" "/root" fs3 envNoSpec [] rfl rfl).2 rfl⟩

/-! ## Claim C3 -/

/-- C3 counterexample: loading `/root/a.py.py` registers the module under the
identifier `"a"` — `replace('.py', '')` removes every occurrence of `.py` —
whereas the base name minus only its trailing extension is `"a.py"`, under
which nothing is registered.  This falsifies the claim's assertion that a base
name containing `.py` other than as the final extension keeps everything but
the trailing extension. -/
theorem C3_counterexample :
    (script_as_module (.str "a.py.py") (.str "/root") fs3 envOk []).result = .ok true ∧
    (script_as_module (.str "a.py.py") (.str "/root") fs3 envOk []).registry = [("a", 7)] ∧
    specModuleName (pyBasename (osJoin "/root" "a.py.py")) = "a.py" ∧
    dictLookup "a.py" (script_as_module (.str "a.py.py") (.str "/root") fs3 envOk []).registry
      = none :=
  ⟨rfl, rfl, rfl, rfl⟩

/-- C3 (amended): the module identifier under which a successfully loaded
module is registered equals the file's base name with every occurrence of
`.py` removed (so `foo.py` still registers as `foo`, but the identifier for a
base name containing `.py` elsewhere loses those occurrences too). -/
theorem C3_registered_identifier (fp dir : String) (fs : FileSys)
    (env : LoaderEnv) (reg : List (String × Nat))
    (hdir : fs.isDir dir = true)
    (hfile : fs.isFile (osJoin dir fp) = true)
    (hspec : env.specOk = true) (hexec : env.exec = .success) :
    (script_as_module (.str fp) (.str dir) fs env reg).registry =
      dictInsert (pyReplacePy (pyBasename (osJoin dir fp))) env.moduleTok reg ∧
    dictLookup (pyReplacePy (pyBasename (osJoin dir fp)))
      (script_as_module (.str fp) (.str dir) fs env reg).registry = some env.moduleTok := by
  have h : (script_as_module (.str fp) (.str dir) fs env reg).registry =
      dictInsert (pyReplacePy (pyBasename (osJoin dir fp))) env.moduleTok reg := by
    simp [script_as_module, hdir, hfile, hspec, hexec]
  exact ⟨h, by rw [h]; exact dictLookup_dictInsert_self _ _ _⟩

/-- Witness for C3 (amended): `foo.py` in `/root/activities` registers under
`foo`. -/
theorem C3_registered_identifier_witness :
    (script_as_module (.str "foo.py") (.str "/root/activities") fs3 envOk []).registry
      = [("foo", 7)] ∧
    dictLookup "foo"
      (script_as_module (.str "foo.py") (.str "/root/activities") fs3 envOk []).registry
      = some 7 :=
  ⟨(C3_registered_identifier "foo.py" "/root/activities" fs3 envOk [] rfl rfl rfl rfl).1,
   (C3_registered_identifier "foo.py" "/root/activities" fs3 envOk [] rfl rfl rfl rfl).2⟩

/-! ## Claim C4 -/

/-- C4 counterexample: for an HTTP location, a network failure (`wNet`) and a
response-body parse failure (`wParse`) raise errors of the *same* kind — both
a bare `Exception` — because `except (requests.RequestException,
yaml.YAMLError)` handles them with one clause.  This falsifies the claim that
the retrieval error is distinct in kind from the parse error. -/
theorem C4_counterexample :
    wNet.http "http://h/m.yaml" = .netErr "boom" ∧
    wParse.http "http://h/m.yaml" = .response 200 "bad: [" ∧
    wParse.parseYaml "bad: [" = .error "parse boom" ∧
    errClassOf (load_yaml "http://h/m.yaml" wNet) = some .genericException ∧
    errClassOf (load_yaml "http://h/m.yaml" wParse) = some .genericException :=
  ⟨rfl, rfl, rfl, rfl, rfl⟩

/-- C4 (amended): for HTTP(S) locations, network failures, failing statuses
and response-body parse failures all raise the same generic `Exception` kind,
each wrapping the underlying diagnostic in the same message format; for a
local file whose contents fail YAML parsing, the raised `yaml.YAMLError` wraps
the original parser's diagnostic message. -/
theorem C4_error_kinds (w : World) (url path : String) (status : Nat)
    (body msg pmsg : String)
    (hhttp : strStartsWith url "http://" = true ∨ strStartsWith url "https://" = true) :
    (w.http url = .netErr msg → load_yaml url w = .error (.genericExc
      ("Error loading YAML from `" ++ url ++ "`. \n " ++ msg))) ∧
    (w.http url = .response status body → 400 ≤ status → status < 600 →
      load_yaml url w = .error (.genericExc
        ("Error loading YAML from `" ++ url ++ "`. \n " ++ httpStatusMsg status url))) ∧
    (w.http url = .response status body → status < 400 →
      w.parseYaml body = .error pmsg →
      load_yaml url w = .error (.genericExc
        ("Error loading YAML from `" ++ url ++ "`. \n " ++ pmsg))) ∧
    (strStartsWith path "http://" = false → strStartsWith path "https://" = false →
      w.fs.isFile path = true → w.parseYaml (w.fs.content path) = .error pmsg →
      load_yaml path w = .error (.yamlErr
        ("File `" ++ path ++ "` loading error. \n " ++ pmsg))) := by
  have hcond : (strStartsWith url "http://" || strStartsWith url "https://") = true := by
    rcases hhttp with h | h <;> simp [h]
  refine ⟨?_, ?_, ?_, ?_⟩
  · intro hnet
    simp [load_yaml, hcond, hnet]
  · intro hresp h4 h6
    simp [load_yaml, hcond, hresp, h4, h6]
  · intro hresp h4 hparse
    have : ¬ (400 ≤ status ∧ status < 600) := fun hc => absurd h4 (by omega)
    simp [load_yaml, hcond, hresp, if_neg this, hparse]
  · intro h1 h2 hfile hparse
    simp [load_yaml, h1, h2, hfile, hparse]

/-- Witness for C4 (amended) at concrete worlds for each failure shape. -/
theorem C4_error_kinds_witness :
    load_yaml "http://h/m.yaml" wNet =
      .error (.genericExc "Error loading YAML from `http://h/m.yaml`. \n boom") ∧
    load_yaml "http://h/m.yaml" wParse =
      .error (.genericExc "Error loading YAML from `http://h/m.yaml`. \n parse boom") ∧
    load_yaml "/m.yaml" wLocalBad =
      .error (.yamlErr "File `/m.yaml` loading error. \n parse boom") :=
  ⟨(C4_error_kinds wNet "http://h/m.yaml" "/m.yaml" 200 "" "boom" ""
      (Or.inl rfl)).1 rfl,
   (C4_error_kinds wParse "http://h/m.yaml" "/m.yaml" 200 "bad: [" "" "parse boom"
      (Or.inl rfl)).2.2.1 rfl (by decide) rfl,
   (C4_error_kinds wLocalBad "http://h/m.yaml" "/m.yaml" 200 "" "" "parse boom"
      (Or.inl rfl)).2.2.2 rfl rfl rfl rfl⟩

/-! ## Claim C5 -/

/-- C5: `_script_as_module` fails with a distinct error kind for each violated
precondition — `TypeError` for a non-string `activities_dirpath` or
`module_filepath`, `NotADirectoryError` for a missing directory, and
`FileNotFoundError` for a missing joined file — each before any load is
attempted (the effect trace is empty and the registry untouched). -/
theorem C5_precondition_errors (fs : FileSys) (env : LoaderEnv)
    (reg : List (String × Nat)) (t s dir fp : String) :
    (script_as_module (.str s) (.nonStr t) fs env reg =
      ⟨.error (.typeErr ("`activities_dirpath` must be a string, not " ++ t)), reg, []⟩) ∧
    (script_as_module (.nonStr t) (.str dir) fs env reg =
      ⟨.error (.typeErr ("`module_filepath` must be a string, not " ++ t)), reg, []⟩) ∧
    (fs.isDir dir = false →
      script_as_module (.str fp) (.str dir) fs env reg =
        ⟨.error (.notADirErr ("No such directory: '" ++ dir ++ "'")), reg, []⟩) ∧
    (fs.isDir dir = true → fs.isFile (osJoin dir fp) = false →
      script_as_module (.str fp) (.str dir) fs env reg =
        ⟨.error (.fileNotFoundErr ("No such file: '" ++ osJoin dir fp ++ "'")), reg, []⟩) := by
  refine ⟨rfl, rfl, ?_, ?_⟩
  · intro hdir
    simp [script_as_module, hdir]
  · intro hdir hfile
    simp [script_as_module, hdir, hfile]

/-- Witness for C5 at a concrete filesystem with directory `/d` and no
files. -/
theorem C5_precondition_errors_witness :
    (script_as_module (.str "x.py") (.nonStr "int") fsPre envOk [] =
      ⟨.error (.typeErr "`activities_dirpath` must be a string, not int"), [], []⟩) ∧
    (script_as_module (.nonStr "int") (.str "/d") fsPre envOk [] =
      ⟨.error (.typeErr "`module_filepath` must be a string, not int"), [], []⟩) ∧
    (script_as_module (.str "x.py") (.str "/nodir") fsPre envOk [] =
      ⟨.error (.notADirErr "No such directory: '/nodir'"), [], []⟩) ∧
    (script_as_module (.str "x.py") (.str "/d") fsPre envOk [] =
      ⟨.error (.fileNotFoundErr "No such file: '/d/x.py'"), [], []⟩) :=
  ⟨(C5_precondition_errors fsPre envOk [] "int" "x.py" "/d" "x.py").1,
   (C5_precondition_errors fsPre envOk [] "int" "x.py" "/d" "x.py").2.1,
   (C5_precondition_errors fsPre envOk [] "int" "x.py" "/nodir" "x.py").2.2.1 rfl,
   (C5_precondition_errors fsPre envOk [] "int" "x.py" "/d" "x.py").2.2.2 rfl rfl⟩

/-! ## Claim C6 -/

/-- C6: for a catalog of record dicts in which at least one record lacks a
`name` key or lacks a `url` key, `build_activities_menu` raises `ValueError`
before rendering any widget or attempting any load: the whole call fails with
an empty effect trace and an unchanged registry. -/
theorem C6_schema_violation (dict : List (YVal × YVal)) (label widgetKey : String)
    (dirpath : PyVal) (disabled : Bool) (widget : MenuWidget) (fs : FileSys)
    (env : LoaderEnv) (reg : List (String × Nat))
    (hdicts : ∀ p ∈ dict, ∃ m, p.2 = YVal.vdict m)
    (hbad : ∃ p, p ∈ dict ∧ ∃ m, p.2 = YVal.vdict m ∧
      (m.hasKey "name" = false ∨ m.hasKey "url" = false)) :
    build_activities_menu dict label widgetKey dirpath disabled widget fs env reg =
      ⟨.error (.valueErr "Each activity dict must have both 'name' and 'url'"), reg, []⟩ := by
  have hv := validateActivities_violation dict hdicts hbad
  simp [build_activities_menu, hv]

/-- Witness for C6 at a one-record catalog whose record lacks `url`. -/
theorem C6_schema_violation_witness :
    build_activities_menu [(.vstr "A", recNoUrl)] "menu" "k" (.str "/root") false
        widgetFirst fs3 envOk [] =
      ⟨.error (.valueErr "Each activity dict must have both 'name' and 'url'"), [], []⟩ :=
  C6_schema_violation [(.vstr "A", recNoUrl)] "menu" "k" (.str "/root") false
    widgetFirst fs3 envOk []
    (by
      intro p hp
      rcases List.mem_cons.mp hp with rfl | hp
      · exact ⟨.cons "name" (.vstr "A") .nil, rfl⟩
      · exact absurd hp (List.not_mem_nil p))
    ⟨(.vstr "A", recNoUrl), List.mem_cons_self _ _,
      .cons "name" (.vstr "A") .nil, rfl, Or.inr rfl⟩

/-! ## Claim C7 -/

/-- C7: for a catalog that passes validation and option collection,
`build_activities_menu` returns the input catalog itself as the second
component; with a selection it returns that selection's name no matter what
boolean the triggered load returns, and with no selection it returns `none`
for the name. -/
theorem C7_selection_result (dict : List (YVal × YVal)) (label widgetKey : String)
    (dirpath : PyVal) (disabled : Bool) (widget : MenuWidget) (fs : FileSys)
    (env : LoaderEnv) (reg : List (String × Nat)) (opts : List (YVal × YVal))
    (hval : validateActivities dict = .ok ())
    (hopts : collectOptions dict = .ok opts) :
    (widget.choose opts disabled = none →
      (build_activities_menu dict label widgetKey dirpath disabled widget fs env reg).result
        = .ok (none, dict)) ∧
    (∀ n u b, widget.choose opts disabled = some (n, u) →
      (script_as_module u.asArg dirpath fs env reg).result = .ok b →
      (build_activities_menu dict label widgetKey dirpath disabled widget fs env reg).result
        = .ok (some n, dict)) := by
  constructor
  · intro hnone
    simp [build_activities_menu, hval, hopts, hnone]
  · intro n u b hsel hload
    simp [build_activities_menu, hval, hopts, hsel, hload]

/-- Witness for C7: the no-selection widget yields `(none, catalog)` and the
first-option widget yields `(some "A", catalog)` with the catalog returned
unchanged in both. -/
theorem C7_selection_result_witness :
    (build_activities_menu [(.vstr "A", recA)] "menu" "k" (.str "/root") false
        widgetNone fs3 envOk []).result = .ok (none, [(.vstr "A", recA)]) ∧
    (build_activities_menu [(.vstr "A", recA)] "menu" "k" (.str "/root") false
        widgetFirst fs3 envOk []).result = .ok (some (.vstr "A"), [(.vstr "A", recA)]) :=
  ⟨(C7_selection_result [(.vstr "A", recA)] "menu" "k" (.str "/root") false
      widgetNone fs3 envOk [] [(.vstr "A", .vstr "a.py")] rfl rfl).1 rfl,
   (C7_selection_result [(.vstr "A", recA)] "menu" "k" (.str "/root") false
      widgetFirst fs3 envOk [] [(.vstr "A", .vstr "a.py")] rfl rfl).2
     (.vstr "A") (.vstr "a.py") true rfl rfl⟩

/-! ## Claim C8 -/

/-- C8: when the manifest file exists but its parsed document is falsy (null,
empty sequence, empty mapping, ...), `get_available_activities` returns the
absence marker `None`, not an empty mapping. -/
theorem C8_falsy_document (w : World) (path : String) (doc : YVal)
    (hfile : w.fs.isFile path = true)
    (hload : load_yaml (pyAbspath w.fs.cwd path) w = .ok doc)
    (hfalsy : doc.truthy = false) :
    get_available_activities path w = .ok none := by
  simp [get_available_activities, hfile, hload, hfalsy]

/-- Witness for C8 at a manifest parsing to YAML `null`. -/
theorem C8_falsy_document_witness :
    get_available_activities "/empty.yaml" w8 = .ok none :=
  C8_falsy_document w8 "/empty.yaml" .vnull rfl rfl rfl

/-! ## Claim C9 -/

/-- C9 counterexample: a non-empty manifest whose single record lacks the
`name` key makes `get_available_activities` raise `KeyError` (the comprehension
subscripts `service['name']`), so catalog building is *not* free of any
reliance on `name` presence.  This falsifies the claim that it succeeds
without raising on records that lack `name`. -/
theorem C9_counterexample :
    w9.fs.isFile "/act.yaml" = true ∧
    w9.parseYaml "" = .ok (.vlist (.cons (.vdict (.cons "url" (.vstr "a.py") .nil)) .nil)) ∧
    get_available_activities "/act.yaml" w9 = .error (.keyErr "name") :=
  ⟨rfl, rfl, rfl⟩

/-- C9 (amended): catalog building performs no validation of `url` presence —
for every non-empty document all of whose records carry a `name` key it
succeeds without raising, even when records lack `url` (that validation is
deferred to the menu-build step) — but a record lacking `name` raises
`KeyError` during the comprehension's subscript. -/
theorem C9_no_url_validation (w : World) (path : String) (records : List YVal)
    (hfile : w.fs.isFile path = true)
    (hload : load_yaml (pyAbspath w.fs.cwd path) w = .ok (.vlist (YSeq.ofList records)))
    (hnames : ∀ s ∈ records, ∃ n, s.getItem "name" = .ok n) :
    ∃ r, get_available_activities path w = .ok r := by
  cases records with
  | nil =>
    exact ⟨none, by simp [get_available_activities, hfile, hload, YVal.truthy,
      YSeq.ofList, YSeq.isNil]⟩
  | cons r rs =>
    obtain ⟨d, hd⟩ := buildServicesAux_isOk (r :: rs) [] hnames
    exact ⟨some d, by simp [get_available_activities, hfile, hload, YVal.truthy,
      YSeq.ofList, YSeq.isNil, pyIter, YSeq.toList, YSeq.toList_ofList, hd]⟩

/-- Witness for C9 (amended): a manifest whose single record has `name` but no
`url` builds a catalog without raising. -/
theorem C9_no_url_validation_witness :
    ∃ r, get_available_activities "/one.yaml" wNoUrl = .ok r :=
  C9_no_url_validation wNoUrl "/one.yaml" [recNoUrl] rfl rfl
    (by
      intro s hs
      rcases List.mem_cons.mp hs with rfl | hs
      · exact ⟨.vstr "A", rfl⟩
      · exact absurd hs (List.not_mem_nil s))

/-! ## Claim C10 -/

/-- C10: when executing the loaded script's top-level code raises,
`_script_as_module` leaves the module registry exactly as it found it — the
`sys.modules[module_name] = module` write happens only after `exec_module`
returns — so a prior registration under the derived identifier survives a
failed re-load. -/
theorem C10_registry_atomic (mf ad : PyVal) (fs : FileSys) (env : LoaderEnv)
    (reg : List (String × Nat)) (msg : String)
    (hexec : env.exec = .raises msg) :
    (script_as_module mf ad fs env reg).registry = reg := by
  cases ad with
  | nonStr t => rfl
  | str dir =>
    cases mf with
    | nonStr t => rfl
    | str fp =>
      by_cases h1 : fs.isDir dir
      · by_cases h2 : fs.isFile (osJoin dir fp)
        · cases h3 : env.specOk <;>
            simp [script_as_module, h1, h2, h3, hexec]
        · simp [script_as_module, h1, h2]
      · simp [script_as_module, h1]

/-- Witness for C10: re-loading `/root/a.py.py` with a raising script leaves
the prior registration of identifier `a` untouched. -/
theorem C10_registry_atomic_witness :
    (script_as_module (.str "a.py.py") (.str "/root") fs3 envRaise [("a", 5)]).registry
      = [("a", 5)] :=
  C10_registry_atomic (.str "a.py.py") (.str "/root") fs3 envRaise [("a", 5)] "boom" rfl

end SAMenu
